import Mathlib

/-!
Verification of `api/wht-pdf-generator.py`: a single-request PDF report
generator.  The source builds an ordered list of reportlab flow elements
(paragraphs, spacers, tables), attaches a per-page footer drawer, and an
HTTP handler validates the JSON payload and derives the response filename.

The shallow embedding below mirrors the source:
  * Python `str.upper()` / slicing `s[:n]` act on code points, modelled by
    `pyUpper` / `pyTake` over `String.data`.
  * Python dicts with known keys (`verdict`, `founder_profile`) are records
    of `Option` fields plus an `extra` key list, so that Python dict
    truthiness (non-emptiness) is represented faithfully.
  * reportlab `Paragraph`/`Spacer`/`Table` become the `FlowElement` type;
    style objects keep the attributes the source sets.  Lengths such as
    `0.05*inch` are exact rationals.
  * The binary serialization performed by reportlab itself is outside the
    repository; the embedding stops at the composed element sequence and
    the build configuration (elements plus footer callbacks), which is all
    the repository code produces before handing off to the library.
-/

/-- Model of Python `str.upper()`: per-code-point uppercasing. -/
def pyUpper (s : String) : String := String.mk (s.data.map Char.toUpper)

/-- Model of Python slicing `s[:n]`: the first `n` code points. -/
def pyTake (n : Nat) (s : String) : String := String.mk (s.data.take n)

/-- Model of Python string truthiness check `not s` for an optional field
read with `data.get(key)`: true when absent (`None`) or empty. -/
def pyFalsyStr : Option String → Bool
  | none => true
  | some s => s.isEmpty

/-- Model of `json.dumps({'error': msg})` for the fixed error messages
(no characters needing JSON escaping occur in them). -/
def jsonError (msg : String) : String :=
  "\x7b\"error\": \"" ++ msg ++ "\"\x7d"

/-- reportlab color values used by the source: `colors.HexColor('#..')`
and `colors.black`. -/
inductive RLColor
  | hex (code : String)
  | black
deriving DecidableEq

/-- Attributes of a `ParagraphStyle`; the source sets only a subset per
style, the rest stay at the parent default (`none` here). -/
structure ParagraphStyle where
  name : String
  parent : String
  fontSize : Option ℚ := none
  textColor : Option RLColor := none
  spaceAfter : Option ℚ := none
  spaceBefore : Option ℚ := none
  alignment : Option Nat := none
  fontName : Option String := none
  leading : Option ℚ := none
deriving DecidableEq

/-- One reportlab `TableStyle` command, as used in the source. -/
inductive TableCmd
  | fontname (p q : Int × Int) (font : String)
  | fontsize (p q : Int × Int) (size : ℚ)
  | bottompadding (p q : Int × Int) (v : ℚ)
  | toppadding (p q : Int × Int) (v : ℚ)
  | textcolor (p q : Int × Int) (c : RLColor)
  | background (p q : Int × Int) (c : RLColor)
  | box (p q : Int × Int) (weight : ℚ) (c : RLColor)
  | align (p q : Int × Int) (a : String)
deriving DecidableEq

/-- A reportlab flow element appended to the `elements` list. -/
inductive FlowElement
  | para (text : String) (style : ParagraphStyle)
  | spacer (width height : ℚ)
  | table (rows : List (List String)) (colWidths : List ℚ) (style : List TableCmd)
deriving DecidableEq

/-- One point-unit inch, `reportlab.lib.units.inch`. -/
def inch : ℚ := 72

/-- Letter page size `reportlab.lib.pagesizes.letter` (612 × 792 pt). -/
def letter : ℚ × ℚ := (612, 792)

/-- State of the pagination engine visible to a page callback: `doc.page`
is the 1-based number of the page being drawn. -/
structure DocState where
  page : Nat

/-- What one invocation of the footer drawer paints on the canvas:
the horizontal rule and the centred footer text with their attributes. -/
structure FooterDraw where
  strokeColor : RLColor
  lineWidth : ℚ
  lineX1 : ℚ
  lineY1 : ℚ
  lineX2 : ℚ
  lineY2 : ℚ
  font : String
  fontSize : ℚ
  fillColor : RLColor
  textX : ℚ
  textY : ℚ
  text : String
deriving DecidableEq

/-- Embedding of `create_footer_drawer`: returns the per-page callback,
a closure over `assessment_id` reading `doc.page` live at draw time. -/
def create_footer_drawer (assessment_id : String) : DocState → FooterDraw :=
  fun doc =>
    { strokeColor := .hex "#2563eb"
      lineWidth := 0.5
      lineX1 := 72, lineY1 := 50, lineX2 := letter.1 - 72, lineY2 := 50
      font := "Helvetica", fontSize := 8
      fillColor := .hex "#666666"
      textX := letter.1 / 2, textY := 35
      text := "Will I Hate This? — Founder–GTM Misery Risk Diagnostic | Assessment ID: "
        ++ assessment_id ++ " | Page " ++ toString doc.page }

/-- Known keys of the `verdict` dict (read with `.get`), plus the other
keys the caller may have sent, so that dict emptiness is representable. -/
structure VerdictData where
  gtm_description : Option String
  pressure_flags : Option (List String)
  explanation : Option String
  extra : List String
deriving DecidableEq

/-- Python truthiness `not verdict` for the verdict dict: empty mapping. -/
def VerdictData.isEmptyDict (v : VerdictData) : Bool :=
  v.gtm_description.isNone && v.pressure_flags.isNone
    && v.explanation.isNone && v.extra.isEmpty

/-- Known keys of the `founder_profile` dict, plus remaining keys. -/
structure FounderProfile where
  core_drivers : Option (List String)
  core_drains : Option (List String)
  extra : List String
deriving DecidableEq

/-- Style `title_style` of the source. -/
def title_style : ParagraphStyle :=
  { name := "CustomTitle", parent := "Heading1", fontSize := some 18,
    textColor := some (.hex "#1f2937"), spaceAfter := some 6, alignment := some 1 }

/-- Style `subtitle_style` of the source. -/
def subtitle_style : ParagraphStyle :=
  { name := "SubtitleStyle", parent := "Normal", fontSize := some 10,
    textColor := some (.hex "#6b7280"), alignment := some 1, spaceAfter := some 24 }

/-- Style `heading_style` of the source. -/
def heading_style : ParagraphStyle :=
  { name := "CustomHeading", parent := "Heading2", fontSize := some 13,
    textColor := some (.hex "#2563eb"), spaceAfter := some 10,
    spaceBefore := some 16, fontName := some "Helvetica-Bold" }

/-- Style `body_style` of the source. -/
def body_style : ParagraphStyle :=
  { name := "BodyStyle", parent := "Normal", fontSize := some 10,
    textColor := some (.hex "#374151"), spaceAfter := some 8, leading := some 14 }

/-- Style `final_warning` of the source. -/
def final_warning : ParagraphStyle :=
  { name := "FinalWarning", parent := "Normal", fontSize := some 10,
    textColor := some (.hex "#374151"), alignment := some 1,
    fontName := some "Helvetica-Bold", spaceAfter := some 12 }

/-- Rows of the metadata table. -/
def metadata_data (assessment_id timestamp : String) : List (List String) :=
  [["Assessment ID:", assessment_id],
   ["Generated:", timestamp],
   ["Assessment Type:", "Founder–GTM Misery Risk Classification"],
   ["Classification Integrity:", "Deterministic"]]

/-- Style commands of the metadata table. -/
def metadata_table_style : List TableCmd :=
  [.fontname (0, 0) (0, -1) "Helvetica-Bold",
   .fontsize (0, 0) (-1, -1) 9,
   .bottompadding (0, 0) (-1, -1) 4,
   .textcolor (0, 0) (-1, -1) (.hex "#4b5563")]

/-- Fixed disclaimer paragraph (whitespace of the Python triple-quoted
literal normalized; the apostrophe is written as an escape). -/
def disclaimer_text : String :=
  "<i>This assessment does not evaluate idea quality, market size, or likelihood of success. It evaluates the risk that executing the required GTM will conflict with the founder\x27s working preferences.</i>"

/-- Severity color mapping `risk_colors` of the source. -/
def risk_colors : List (String × RLColor) :=
  [("LOW", .hex "#10b981"),
   ("MODERATE", .hex "#f59e0b"),
   ("HIGH", .hex "#ef4444"),
   ("SEVERE", .hex "#991b1b")]

/-- Embedding of `risk_colors.get(risk_level.upper(), colors.black)`. -/
def risk_color (risk_level : String) : RLColor :=
  (risk_colors.lookup (pyUpper risk_level)).getD RLColor.black

/-- Rows of the verdict box table. -/
def verdict_data (risk_level : String) : List (List String) :=
  [["Misery Risk: " ++ pyUpper risk_level],
   ["Expected mismatch between GTM requirements and founder energy profile."]]

/-- Style commands of the verdict box table, parameterized by the
severity color used for both the border and the first-row text. -/
def verdict_table_style (c : RLColor) : List TableCmd :=
  [.background (0, 0) (-1, -1) (.hex "#f9fafb"),
   .box (0, 0) (-1, -1) 2 c,
   .fontname (0, 0) (0, 0) "Helvetica-Bold",
   .fontsize (0, 0) (0, 0) 14,
   .fontsize (0, 1) (0, 1) 10,
   .textcolor (0, 0) (0, 0) c,
   .align (0, 0) (-1, -1) "CENTER",
   .toppadding (0, 0) (-1, -1) 12,
   .bottompadding (0, 0) (-1, -1) 12]

/-- Fixed explanatory paragraph under the Time-to-Regret heading. -/
def regret_text : String :=
  "This is the point at which founders with similar profiles historically report avoidance, burnout, or abandonment."

/-- Fixed list of what the verdict does not say. -/
def does_not_say : String :=
  "This verdict does not say: • That the idea is bad • That the market is too small • That someone else could not succeed with this idea • That you should abandon the idea immediately It only states that this GTM path is statistically misaligned with how you work."

/-- Fixed immutability notice. -/
def immutable_text : String :=
  "<i>This report does not update. Re-running the assessment with different answers constitutes a different idea.</i>"

/-- Elements of the optional Active Pressure Flags sub-section
(`if pressure_flags:` block of the source). -/
def pressureSection (pressure_flags : List String) : List FlowElement :=
  if !pressure_flags.isEmpty then
    [.spacer 1 (0.1 * inch),
     .para "<b>Active Pressure Flags:</b>" body_style]
      ++ pressure_flags.map (fun flag => .para ("• " ++ flag) body_style)
  else []

/-- Elements of the optional Core Drivers sub-section (`if drivers:`). -/
def driversSection (drivers : List String) : List FlowElement :=
  if !drivers.isEmpty then
    [.para "<b>Core Drivers:</b>" body_style]
      ++ drivers.map (fun driver => .para ("• " ++ driver) body_style)
  else []

/-- Elements of the optional Core Drains sub-section (`if drains:`). -/
def drainsSection (drains : List String) : List FlowElement :=
  if !drains.isEmpty then
    [.spacer 1 (0.1 * inch),
     .para "<b>Core Drains:</b>" body_style]
      ++ drains.map (fun drain => .para ("• " ++ drain) body_style)
  else []

/-- Elements of the MISMATCH FLAGS section body: `if mismatch_flags:`
one "✗ "-prefixed paragraph per flag, each followed by a small spacer;
otherwise the fixed fallback paragraph. -/
def mismatchSection (mismatch_flags : List String) : List FlowElement :=
  if !mismatch_flags.isEmpty then
    mismatch_flags.flatMap (fun flag =>
      [.para ("✗ " ++ flag) body_style, .spacer 1 (0.05 * inch)])
  else
    [.para "No critical mismatches detected." body_style]

/-- Embedding of the element-list assembly of `generate_verdict_pdf`:
the ordered flow-element sequence handed to `doc.build`. -/
def generate_verdict_elements (assessment_id timestamp : String)
    (verdict : VerdictData) (gtm_shape : String)
    (founder_profile : FounderProfile) (mismatch_flags : List String)
    (time_to_regret risk_level : String) : List FlowElement :=
  [.para "FOUNDER–GTM MISERY RISK DIAGNOSTIC" title_style,
   .para "Will I Hate This?" subtitle_style,
   .table (metadata_data assessment_id timestamp) [2 * inch, 4 * inch] metadata_table_style,
   .spacer 1 (0.15 * inch),
   .para disclaimer_text body_style,
   .spacer 1 (0.25 * inch),
   .para "VERDICT" heading_style,
   .table (verdict_data risk_level) [6 * inch] (verdict_table_style (risk_color risk_level)),
   .spacer 1 (0.2 * inch),
   .para ("Time-to-Regret: " ++ time_to_regret) heading_style,
   .para regret_text body_style,
   .spacer 1 (0.2 * inch),
   .para "PRIMARY GTM SHAPE" heading_style,
   .para ("<b>" ++ gtm_shape ++ "</b>") body_style,
   .para (verdict.gtm_description.getD "Classification description not available.") body_style]
  ++ pressureSection (verdict.pressure_flags.getD [])
  ++ [.spacer 1 (0.2 * inch),
      .para "FOUNDER ENERGY PROFILE" heading_style]
  ++ driversSection (founder_profile.core_drivers.getD [])
  ++ drainsSection (founder_profile.core_drains.getD [])
  ++ [.spacer 1 (0.2 * inch),
      .para "MISMATCH FLAGS" heading_style]
  ++ mismatchSection mismatch_flags
  ++ [.spacer 1 (0.2 * inch),
      .para "CLASSIFICATION BASIS" heading_style,
      .para (verdict.explanation.getD "Classification basis not available.") body_style,
      .spacer 1 (0.2 * inch),
      .para "WHAT THIS VERDICT DOES NOT SAY" heading_style,
      .para does_not_say body_style,
      .spacer 1 (0.3 * inch),
      .para "Most founders ignore this signal." final_warning,
      .para "The cost is usually paid in time, not money." final_warning,
      .spacer 1 (0.2 * inch),
      .para immutable_text body_style]

/-- What `generate_verdict_pdf` passes to `doc.build`: the element
sequence and the page callbacks `onFirstPage` / `onLaterPages`. -/
structure BuildConfig where
  elements : List FlowElement
  onFirstPage : DocState → FooterDraw
  onLaterPages : DocState → FooterDraw

/-- Embedding of `generate_verdict_pdf` up to the `doc.build` call: one
footer drawer is constructed from `assessment_id` and installed for both
the first and all later pages. -/
def generate_verdict_build (assessment_id timestamp : String)
    (verdict : VerdictData) (gtm_shape : String)
    (founder_profile : FounderProfile) (mismatch_flags : List String)
    (time_to_regret risk_level : String) : BuildConfig :=
  let footer_func := create_footer_drawer assessment_id
  { elements := generate_verdict_elements assessment_id timestamp verdict gtm_shape
      founder_profile mismatch_flags time_to_regret risk_level
    onFirstPage := footer_func
    onLaterPages := footer_func }

/-- Fields of the parsed JSON request body that `handler.do_POST` reads
with `data.get(...)`; `none` models an absent key. -/
structure RequestData where
  assessment_id : Option String
  verdict : Option VerdictData
  gtm_shape : Option String
  founder_profile : Option FounderProfile
  mismatch_flags : Option (List String)
  time_to_regret : Option String
  risk_level : Option String
deriving DecidableEq

/-- Outcome of `handler.do_POST` on a parsed body: a 400 client error
with its JSON body string, or the 200 success path carrying the derived
filename and the composed document (the rendering hand-off). -/
inductive HandlerResponse
  | clientError (body : String)
  | success (filename : String) (document : List FlowElement)
deriving DecidableEq

/-- Filename of the `pdfAttachmentData` of a response, when present. -/
def HandlerResponse.filenameOf : HandlerResponse → Option String
  | .success fn _ => some fn
  | .clientError _ => none

/-- Embedding of `handler.do_POST` after JSON parsing: field extraction
with the source defaults, the two validation gates in source order, and
the success path (`now` stands for the wall-clock timestamp string). -/
def do_POST (data : RequestData) (now : String) : HandlerResponse :=
  if pyFalsyStr data.assessment_id then
    .clientError (jsonError "assessment_id is required")
  else
    let assessment_id := data.assessment_id.getD ""
    let timestamp := now
    let verdict := data.verdict.getD ⟨none, none, none, []⟩
    let gtm_shape := data.gtm_shape.getD "Not Classified"
    let founder_profile := data.founder_profile.getD ⟨none, none, []⟩
    let mismatch_flags := data.mismatch_flags.getD []
    let time_to_regret := data.time_to_regret.getD "Unknown"
    let risk_level := data.risk_level.getD "UNKNOWN"
    if verdict.isEmptyDict || gtm_shape.isEmpty then
      .clientError (jsonError "Verdict data missing. Cannot generate report.")
    else
      .success ("WHT-Diagnostic-Report-" ++ pyTake 8 assessment_id ++ ".pdf")
        (generate_verdict_elements assessment_id timestamp verdict gtm_shape
          founder_profile mismatch_flags time_to_regret risk_level)

/-! Helper lemmas shared by several claim theorems. -/

/-- Indexing into a flat-mapped list of two-element blocks: position
`2*i` holds the first element of block `i`, position `2*i+1` the second. -/
lemma flatMap_pair_getElem {α : Type} (f g : String → α) :
    ∀ (l : List String) (i : Nat),
      (l.flatMap fun x => [f x, g x])[2 * i]? = (l[i]?).map f ∧
      (l.flatMap fun x => [f x, g x])[2 * i + 1]? = (l[i]?).map g := by
  intro l
  induction l with
  | nil => intro i; simp
  | cons a t ih =>
    intro i
    cases i with
    | zero => simp
    | succ j =>
      have e1 : 2 * (j + 1) = (2 * j + 1) + 1 := by ring
      rw [e1]
      simpa using ih j

/-- Length of a flat-mapped list of two-element blocks. -/
lemma flatMap_pair_length {α : Type} (f g : String → α) (l : List String) :
    (l.flatMap fun x => [f x, g x]).length = 2 * l.length := by
  induction l with
  | nil => rfl
  | cons a t ih => simp [ih]; omega

/-- Filename of the success response: shared computation behind the
filename claims. -/
lemma do_POST_success_filename (data : RequestData) (now aid : String)
    (h1 : data.assessment_id = some aid) (h2 : aid.isEmpty = false)
    (h3 : (data.verdict.getD ⟨none, none, none, []⟩).isEmptyDict = false)
    (h4 : (data.gtm_shape.getD "Not Classified").isEmpty = false) :
    (do_POST data now).filenameOf =
      some ("WHT-Diagnostic-Report-" ++ pyTake 8 aid ++ ".pdf") := by
  simp [do_POST, pyFalsyStr, h1, h2, h3, h4, HandlerResponse.filenameOf]

/-- C1: the severity color lookup uppercases `risk_level` first and is
exhaustive: the four mapped keys give their hex colors, every other
uppercased value (including the defaulted "UNKNOWN") gives black, and
the lookup is a total function, so no value errors. -/
theorem risk_color_case_insensitive_exhaustive (risk_level : String) :
    (pyUpper risk_level = "LOW" → risk_color risk_level = .hex "#10b981") ∧
    (pyUpper risk_level = "MODERATE" → risk_color risk_level = .hex "#f59e0b") ∧
    (pyUpper risk_level = "HIGH" → risk_color risk_level = .hex "#ef4444") ∧
    (pyUpper risk_level = "SEVERE" → risk_color risk_level = .hex "#991b1b") ∧
    (pyUpper risk_level ∉ ["LOW", "MODERATE", "HIGH", "SEVERE"] →
      risk_color risk_level = .black) := by
  refine ⟨fun h => ?_, fun h => ?_, fun h => ?_, fun h => ?_, fun h => ?_⟩
  · unfold risk_color risk_colors; rw [h]; rfl
  · unfold risk_color risk_colors; rw [h]; rfl
  · unfold risk_color risk_colors; rw [h]; rfl
  · unfold risk_color risk_colors; rw [h]; rfl
  · unfold risk_color risk_colors
    simp only [List.mem_cons, not_or] at h
    obtain ⟨h1, h2, h3, h4, -⟩ := h
    have b1 : (pyUpper risk_level == "LOW") = false := beq_eq_false_iff_ne.mpr h1
    have b2 : (pyUpper risk_level == "MODERATE") = false := beq_eq_false_iff_ne.mpr h2
    have b3 : (pyUpper risk_level == "HIGH") = false := beq_eq_false_iff_ne.mpr h3
    have b4 : (pyUpper risk_level == "SEVERE") = false := beq_eq_false_iff_ne.mpr h4
    simp [List.lookup, b1, b2, b3, b4]

/-- Witness for C1 at concrete inputs of every kind: mixed case hits the
map, unmapped and defaulted values give black. -/
theorem risk_color_case_insensitive_exhaustive_witness :
    risk_color "Low" = .hex "#10b981" ∧
    risk_color "moderate" = .hex "#f59e0b" ∧
    risk_color "HIGH" = .hex "#ef4444" ∧
    risk_color "Severe" = .hex "#991b1b" ∧
    risk_color "CRITICAL" = .black ∧
    risk_color "UNKNOWN" = .black :=
  ⟨(risk_color_case_insensitive_exhaustive "Low").1 (by decide),
   (risk_color_case_insensitive_exhaustive "moderate").2.1 (by decide),
   (risk_color_case_insensitive_exhaustive "HIGH").2.2.1 (by decide),
   (risk_color_case_insensitive_exhaustive "Severe").2.2.2.1 (by decide),
   (risk_color_case_insensitive_exhaustive "CRITICAL").2.2.2.2 (by decide),
   (risk_color_case_insensitive_exhaustive "UNKNOWN").2.2.2.2 (by decide)⟩

/-- C9: for every `risk_level` the verdict box (element 7 of the composed
sequence) has as its first row the text "Misery Risk: " followed by the
uppercased `risk_level`, its style paints that row and the border in the
severity color, and the defaulted "UNKNOWN" keeps the label with the
black default color — the label is never blanked for unmapped values. -/
theorem verdict_box_label_always_uppercased (assessment_id timestamp : String)
    (verdict : VerdictData) (gtm_shape : String) (founder_profile : FounderProfile)
    (mismatch_flags : List String) (time_to_regret risk_level : String) :
    (generate_verdict_elements assessment_id timestamp verdict gtm_shape founder_profile
        mismatch_flags time_to_regret risk_level)[7]? =
      some (.table
        [["Misery Risk: " ++ pyUpper risk_level],
         ["Expected mismatch between GTM requirements and founder energy profile."]]
        [6 * inch] (verdict_table_style (risk_color risk_level))) ∧
    TableCmd.textcolor (0, 0) (0, 0) (risk_color risk_level) ∈
      verdict_table_style (risk_color risk_level) ∧
    TableCmd.box (0, 0) (-1, -1) 2 (risk_color risk_level) ∈
      verdict_table_style (risk_color risk_level) ∧
    risk_color "UNKNOWN" = RLColor.black ∧
    pyUpper "UNKNOWN" = "UNKNOWN" := by
  refine ⟨rfl, ?_, ?_, by decide, by decide⟩ <;> simp [verdict_table_style]

/-- C3: the build installs the one footer drawer built from
`assessment_id` for the first and all later pages alike; on any page `k`
(1-based, read live from the pagination state at draw time) the drawn
text is the fixed format string ending in the page number, and it
contains "Page k" literally. -/
theorem footer_on_every_page (assessment_id timestamp : String)
    (verdict : VerdictData) (gtm_shape : String) (founder_profile : FounderProfile)
    (mismatch_flags : List String) (time_to_regret risk_level : String)
    (k : Nat) (_hk : 1 ≤ k) :
    (generate_verdict_build assessment_id timestamp verdict gtm_shape founder_profile
        mismatch_flags time_to_regret risk_level).onFirstPage =
      (generate_verdict_build assessment_id timestamp verdict gtm_shape founder_profile
        mismatch_flags time_to_regret risk_level).onLaterPages ∧
    (generate_verdict_build assessment_id timestamp verdict gtm_shape founder_profile
        mismatch_flags time_to_regret risk_level).onFirstPage =
      create_footer_drawer assessment_id ∧
    ((generate_verdict_build assessment_id timestamp verdict gtm_shape founder_profile
        mismatch_flags time_to_regret risk_level).onFirstPage ⟨k⟩).text =
      "Will I Hate This? — Founder–GTM Misery Risk Diagnostic | Assessment ID: "
        ++ assessment_id ++ " | Page " ++ toString k ∧
    ∃ t, ((generate_verdict_build assessment_id timestamp verdict gtm_shape founder_profile
        mismatch_flags time_to_regret risk_level).onFirstPage ⟨k⟩).text =
      t ++ ("Page " ++ toString k) := by
  refine ⟨rfl, rfl, rfl,
    ⟨"Will I Hate This? — Founder–GTM Misery Risk Diagnostic | Assessment ID: "
      ++ assessment_id ++ " | ", ?_⟩⟩
  show "Will I Hate This? — Founder–GTM Misery Risk Diagnostic | Assessment ID: "
      ++ assessment_id ++ " | Page " ++ toString k =
    ("Will I Hate This? — Founder–GTM Misery Risk Diagnostic | Assessment ID: "
      ++ assessment_id ++ " | ") ++ ("Page " ++ toString k)
  have h1 : (" | Page " : String) = " | " ++ "Page " := rfl
  rw [h1, ← String.append_assoc, String.append_assoc]

/-- Witness for C3 at a concrete input and page 1. -/
theorem footer_on_every_page_witness :
    ((generate_verdict_build "A-1" "2026-10-12 00:00:00 UTC" ⟨none, none, some "E", []⟩
        "Shape-A" ⟨none, none, []⟩ [] "6 months" "low").onFirstPage ⟨1⟩).text =
      "Will I Hate This? — Founder–GTM Misery Risk Diagnostic | Assessment ID: A-1 | Page 1" :=
  ((footer_on_every_page "A-1" "2026-10-12 00:00:00 UTC" ⟨none, none, some "E", []⟩
      "Shape-A" ⟨none, none, []⟩ [] "6 months" "low" 1 (by decide)).2.2.1).trans (by decide)

/-- C5: a request with absent or empty `assessment_id` short-circuits to
the client error with the exact body, before any composition, and the
response carries no attachment filename. -/
theorem missing_assessment_id_client_error (data : RequestData) (now : String)
    (h : pyFalsyStr data.assessment_id = true) :
    do_POST data now = .clientError (jsonError "assessment_id is required") ∧
    (do_POST data now).filenameOf = none := by
  have he : do_POST data now = .clientError (jsonError "assessment_id is required") := by
    simp [do_POST, h]
  exact ⟨he, by rw [he]; rfl⟩

/-- Witness for C5: the empty request body. -/
theorem missing_assessment_id_client_error_witness :
    do_POST ⟨none, none, none, none, none, none, none⟩ "2026-10-12 00:00:00 UTC" =
      .clientError (jsonError "assessment_id is required") ∧
    (do_POST ⟨none, none, none, none, none, none, none⟩
        "2026-10-12 00:00:00 UTC").filenameOf = none :=
  missing_assessment_id_client_error ⟨none, none, none, none, none, none, none⟩
    "2026-10-12 00:00:00 UTC" rfl

/-- Request with a present `assessment_id`, a non-empty `verdict`, and an
absent `gtm_shape`: the input on which claim C4, as stated, fails. -/
def c4_request : RequestData :=
  ⟨some "A1", some ⟨some "desc", none, none, []⟩, none, none, none, none, none⟩

/-- Counterexample to C4 as stated: with `verdict` non-empty and
`gtm_shape` absent, the handler does not return the verdict-missing
client error — it succeeds, because the absent `gtm_shape` defaults to
the non-empty string "Not Classified" before the validation check. -/
theorem missing_gtm_shape_not_rejected :
    do_POST c4_request "2026-10-12 00:00:00 UTC" ≠
      HandlerResponse.clientError (jsonError "Verdict data missing. Cannot generate report.") ∧
    (do_POST c4_request "2026-10-12 00:00:00 UTC").filenameOf =
      some "WHT-Diagnostic-Report-A1.pdf" :=
  ⟨fun h => Option.noConfusion (congrArg HandlerResponse.filenameOf h), rfl⟩

/-- C4 as amended: given a present non-empty `assessment_id`, a request
whose `verdict` is absent or an empty object, or whose `gtm_shape` is
explicitly present and empty, gets the 400 body exactly
`{"error": "Verdict data missing. Cannot generate report."}` and no
attachment; an absent `gtm_shape` instead defaults to "Not Classified"
and passes this check. -/
theorem missing_verdict_client_error (data : RequestData) (now : String)
    (h1 : pyFalsyStr data.assessment_id = false)
    (h2 : (data.verdict.getD ⟨none, none, none, []⟩).isEmptyDict = true ∨
      data.gtm_shape = some "") :
    do_POST data now =
      .clientError (jsonError "Verdict data missing. Cannot generate report.") ∧
    (do_POST data now).filenameOf = none := by
  have he : do_POST data now =
      .clientError (jsonError "Verdict data missing. Cannot generate report.") := by
    cases h2 with
    | inl h => simp [do_POST, h1, h]
    | inr h => simp [do_POST, h1, h]; exact fun _ => rfl
  exact ⟨he, by rw [he]; rfl⟩

/-- Witness for the amended C4: absent verdict, and separately a present
but empty `gtm_shape`. -/
theorem missing_verdict_client_error_witness :
    do_POST ⟨some "A1", none, none, none, none, none, none⟩ "2026-10-12 00:00:00 UTC" =
      .clientError (jsonError "Verdict data missing. Cannot generate report.") ∧
    do_POST ⟨some "A1", some ⟨some "desc", none, none, []⟩, some "", none, none, none, none⟩
        "2026-10-12 00:00:00 UTC" =
      .clientError (jsonError "Verdict data missing. Cannot generate report.") :=
  ⟨(missing_verdict_client_error ⟨some "A1", none, none, none, none, none, none⟩
      "2026-10-12 00:00:00 UTC" rfl (Or.inl rfl)).1,
   (missing_verdict_client_error
      ⟨some "A1", some ⟨some "desc", none, none, []⟩, some "", none, none, none, none⟩
      "2026-10-12 00:00:00 UTC" rfl (Or.inr rfl)).1⟩

/-- C6: on every successful request the attachment filename is
"WHT-Diagnostic-Report-" followed by the first 8 code points of
`assessment_id` followed by ".pdf". -/
theorem success_filename_first_eight (data : RequestData) (now aid : String)
    (h1 : data.assessment_id = some aid) (h2 : aid.isEmpty = false)
    (h3 : (data.verdict.getD ⟨none, none, none, []⟩).isEmptyDict = false)
    (h4 : (data.gtm_shape.getD "Not Classified").isEmpty = false) :
    (do_POST data now).filenameOf =
      some ("WHT-Diagnostic-Report-" ++ pyTake 8 aid ++ ".pdf") :=
  do_POST_success_filename data now aid h1 h2 h3 h4

/-- Witness for C6 at `assessment_id = "abcdefghijklmnop"`: the filename
truncates to the first 8 characters. -/
theorem success_filename_first_eight_witness :
    (do_POST ⟨some "abcdefghijklmnop", some ⟨none, none, some "E", []⟩,
        none, none, none, none, none⟩ "2026-10-12 00:00:00 UTC").filenameOf =
      some "WHT-Diagnostic-Report-abcdefgh.pdf" :=
  (success_filename_first_eight
    ⟨some "abcdefghijklmnop", some ⟨none, none, some "E", []⟩,
      none, none, none, none, none⟩
    "2026-10-12 00:00:00 UTC" "abcdefghijklmnop" rfl rfl rfl rfl).trans (by decide)

/-- C10: for a non-empty `assessment_id` shorter than 8 characters the
slice `assessment_id[:8]` is the whole identifier and the filename uses
it unchanged; the truncation is total and raises nothing. -/
theorem success_filename_short_id (data : RequestData) (now aid : String)
    (h1 : data.assessment_id = some aid) (h2 : aid.isEmpty = false)
    (hlen : aid.length < 8)
    (h3 : (data.verdict.getD ⟨none, none, none, []⟩).isEmptyDict = false)
    (h4 : (data.gtm_shape.getD "Not Classified").isEmpty = false) :
    (do_POST data now).filenameOf =
      some ("WHT-Diagnostic-Report-" ++ aid ++ ".pdf") := by
  have htake : pyTake 8 aid = aid := by
    cases aid with
    | mk l =>
      exact congrArg String.mk (List.take_of_length_le (Nat.le_of_lt hlen))
  have hfn := do_POST_success_filename data now aid h1 h2 h3 h4
  rw [htake] at hfn
  exact hfn

/-- Witness for C10 at `assessment_id = "X1"`. -/
theorem success_filename_short_id_witness :
    (do_POST ⟨some "X1", some ⟨none, none, some "E", []⟩,
        none, none, none, none, none⟩ "2026-10-12 00:00:00 UTC").filenameOf =
      some "WHT-Diagnostic-Report-X1.pdf" :=
  (success_filename_short_id
    ⟨some "X1", some ⟨none, none, some "E", []⟩, none, none, none, none, none⟩
    "2026-10-12 00:00:00 UTC" "X1" rfl rfl (by decide) rfl rfl).trans (by decide)

/-- C2: the composed sequence embeds the MISMATCH FLAGS heading followed
contiguously by the section body; on a non-empty list that body is
exactly one "✗ "-prefixed paragraph per entry in input order, each
followed by a small spacer (so 2·n elements in all); on the empty list
it is the single fixed fallback paragraph. -/
theorem mismatch_flags_section_shape (assessment_id timestamp : String)
    (verdict : VerdictData) (gtm_shape : String) (founder_profile : FounderProfile)
    (mismatch_flags : List String) (time_to_regret risk_level : String) :
    (∃ front rest,
      generate_verdict_elements assessment_id timestamp verdict gtm_shape founder_profile
          mismatch_flags time_to_regret risk_level =
        front ++ ([FlowElement.para "MISMATCH FLAGS" heading_style]
          ++ mismatchSection mismatch_flags) ++ rest) ∧
    (mismatch_flags = [] →
      mismatchSection mismatch_flags =
        [.para "No critical mismatches detected." body_style]) ∧
    (mismatch_flags ≠ [] →
      (mismatchSection mismatch_flags).length = 2 * mismatch_flags.length) ∧
    (∀ i, (hi : i < mismatch_flags.length) →
      (mismatchSection mismatch_flags)[2 * i]? =
        some (.para ("✗ " ++ mismatch_flags.get ⟨i, hi⟩) body_style) ∧
      (mismatchSection mismatch_flags)[2 * i + 1]? =
        some (.spacer 1 (0.05 * inch))) := by
  refine ⟨?_, ?_, ?_, ?_⟩
  · refine ⟨[.para "FOUNDER–GTM MISERY RISK DIAGNOSTIC" title_style,
      .para "Will I Hate This?" subtitle_style,
      .table (metadata_data assessment_id timestamp) [2 * inch, 4 * inch] metadata_table_style,
      .spacer 1 (0.15 * inch),
      .para disclaimer_text body_style,
      .spacer 1 (0.25 * inch),
      .para "VERDICT" heading_style,
      .table (verdict_data risk_level) [6 * inch] (verdict_table_style (risk_color risk_level)),
      .spacer 1 (0.2 * inch),
      .para ("Time-to-Regret: " ++ time_to_regret) heading_style,
      .para regret_text body_style,
      .spacer 1 (0.2 * inch),
      .para "PRIMARY GTM SHAPE" heading_style,
      .para ("<b>" ++ gtm_shape ++ "</b>") body_style,
      .para (verdict.gtm_description.getD "Classification description not available.") body_style]
      ++ pressureSection (verdict.pressure_flags.getD [])
      ++ [.spacer 1 (0.2 * inch), .para "FOUNDER ENERGY PROFILE" heading_style]
      ++ driversSection (founder_profile.core_drivers.getD [])
      ++ drainsSection (founder_profile.core_drains.getD [])
      ++ [.spacer 1 (0.2 * inch)],
      [.spacer 1 (0.2 * inch),
       .para "CLASSIFICATION BASIS" heading_style,
       .para (verdict.explanation.getD "Classification basis not available.") body_style,
       .spacer 1 (0.2 * inch),
       .para "WHAT THIS VERDICT DOES NOT SAY" heading_style,
       .para does_not_say body_style,
       .spacer 1 (0.3 * inch),
       .para "Most founders ignore this signal." final_warning,
       .para "The cost is usually paid in time, not money." final_warning,
       .spacer 1 (0.2 * inch),
       .para immutable_text body_style], ?_⟩
    simp [generate_verdict_elements, List.append_assoc]
  · intro h
    rw [h]
    rfl
  · intro h
    have hne : (!mismatch_flags.isEmpty) = true := by
      cases mismatch_flags with
      | nil => exact absurd rfl h
      | cons a t => rfl
    unfold mismatchSection
    rw [if_pos hne]
    exact flatMap_pair_length _ _ mismatch_flags
  · intro i hi
    have hne : (!mismatch_flags.isEmpty) = true := by
      cases mismatch_flags with
      | nil => simp at hi
      | cons a t => rfl
    unfold mismatchSection
    rw [if_pos hne]
    have hp := flatMap_pair_getElem
      (fun flag => FlowElement.para ("✗ " ++ flag) body_style)
      (fun _ => FlowElement.spacer 1 (0.05 * inch)) mismatch_flags i
    have hget : mismatch_flags[i]? = some (mismatch_flags.get ⟨i, hi⟩) := by
      rw [List.getElem?_eq_getElem hi]
      rfl
    constructor
    · rw [hp.1, hget]
      rfl
    · rw [hp.2, hget]
      rfl

/-- Witness for C2 on the two-flag list of the spec scenario and on the
empty list. -/
theorem mismatch_flags_section_shape_witness :
    (mismatchSection ["F1", "F2"])[0]? = some (.para "✗ F1" body_style) ∧
    (mismatchSection ["F1", "F2"])[1]? = some (.spacer 1 (0.05 * inch)) ∧
    (mismatchSection ["F1", "F2"])[2]? = some (.para "✗ F2" body_style) ∧
    (mismatchSection ["F1", "F2"]).length = 4 ∧
    mismatchSection [] = [.para "No critical mismatches detected." body_style] :=
  ⟨((mismatch_flags_section_shape "A" "t" ⟨none, none, none, []⟩ "S" ⟨none, none, []⟩
      ["F1", "F2"] "6m" "low").2.2.2 0 (by decide)).1,
   ((mismatch_flags_section_shape "A" "t" ⟨none, none, none, []⟩ "S" ⟨none, none, []⟩
      ["F1", "F2"] "6m" "low").2.2.2 0 (by decide)).2,
   ((mismatch_flags_section_shape "A" "t" ⟨none, none, none, []⟩ "S" ⟨none, none, []⟩
      ["F1", "F2"] "6m" "low").2.2.2 1 (by decide)).1,
   ((mismatch_flags_section_shape "A" "t" ⟨none, none, none, []⟩ "S" ⟨none, none, []⟩
      ["F1", "F2"] "6m" "low").2.2.1 (by decide)).trans (by decide),
   (mismatch_flags_section_shape "A" "t" ⟨none, none, none, []⟩ "S" ⟨none, none, []⟩
      [] "6m" "low").2.1 rfl⟩

/-- C7: composition is total on structurally valid inputs — with an
empty founder profile, an empty mismatch list, and a verdict lacking
`gtm_description`, `pressure_flags` and `explanation`, the composer
still returns (it is a total function): the two absent texts become the
fixed placeholders, the three optional sub-sections are omitted, and the
complete document, with the "No critical mismatches detected." fallback
line, is produced. -/
theorem composer_total_on_missing_optionals
    (assessment_id timestamp gtm_shape time_to_regret risk_level : String)
    (verdict : VerdictData) (founder_profile : FounderProfile)
    (h1 : verdict.gtm_description = none)
    (h2 : verdict.pressure_flags = none)
    (h3 : verdict.explanation = none)
    (h4 : founder_profile.core_drivers = none)
    (h5 : founder_profile.core_drains = none) :
    generate_verdict_elements assessment_id timestamp verdict gtm_shape founder_profile
        [] time_to_regret risk_level =
      [.para "FOUNDER–GTM MISERY RISK DIAGNOSTIC" title_style,
       .para "Will I Hate This?" subtitle_style,
       .table (metadata_data assessment_id timestamp) [2 * inch, 4 * inch] metadata_table_style,
       .spacer 1 (0.15 * inch),
       .para disclaimer_text body_style,
       .spacer 1 (0.25 * inch),
       .para "VERDICT" heading_style,
       .table (verdict_data risk_level) [6 * inch] (verdict_table_style (risk_color risk_level)),
       .spacer 1 (0.2 * inch),
       .para ("Time-to-Regret: " ++ time_to_regret) heading_style,
       .para regret_text body_style,
       .spacer 1 (0.2 * inch),
       .para "PRIMARY GTM SHAPE" heading_style,
       .para ("<b>" ++ gtm_shape ++ "</b>") body_style,
       .para "Classification description not available." body_style,
       .spacer 1 (0.2 * inch),
       .para "FOUNDER ENERGY PROFILE" heading_style,
       .spacer 1 (0.2 * inch),
       .para "MISMATCH FLAGS" heading_style,
       .para "No critical mismatches detected." body_style,
       .spacer 1 (0.2 * inch),
       .para "CLASSIFICATION BASIS" heading_style,
       .para "Classification basis not available." body_style,
       .spacer 1 (0.2 * inch),
       .para "WHAT THIS VERDICT DOES NOT SAY" heading_style,
       .para does_not_say body_style,
       .spacer 1 (0.3 * inch),
       .para "Most founders ignore this signal." final_warning,
       .para "The cost is usually paid in time, not money." final_warning,
       .spacer 1 (0.2 * inch),
       .para immutable_text body_style] ∧
    FlowElement.para "No critical mismatches detected." body_style ∈
      generate_verdict_elements assessment_id timestamp verdict gtm_shape founder_profile
        [] time_to_regret risk_level := by
  refine ⟨?_, ?_⟩
  · simp only [generate_verdict_elements, h1, h2, h3, h4, h5]
    simp [pressureSection, driversSection, drainsSection, mismatchSection]
  · simp only [generate_verdict_elements, h2, h4, h5]
    simp [pressureSection, driversSection, drainsSection, mismatchSection]

/-- Witness for C7 at concrete strings with all optional fields absent. -/
theorem composer_total_on_missing_optionals_witness :
    FlowElement.para "No critical mismatches detected." body_style ∈
      generate_verdict_elements "A" "2026-10-12 00:00:00 UTC" ⟨none, none, none, []⟩
        "Shape-A" ⟨none, none, []⟩ [] "6 months" "low" :=
  (composer_total_on_missing_optionals "A" "2026-10-12 00:00:00 UTC" "Shape-A"
    "6 months" "low" ⟨none, none, none, []⟩ ⟨none, none, []⟩ rfl rfl rfl rfl rfl).2
